import Mathlib

/-!
Shallow embedding of the Piston Glutin window back-end
(`src/glutin_window.rs`): the event classifier (`handle_event`), the
cursor-capture emulator (`fake_capture`), the event pump (`poll_events`),
the synthetic pre-pop queue (`pre_pop_front_event`) and the non-blocking
scheduler entry (`poll_event`), together with the key/mouse mapping
tables (`map_key`, `map_mouse`).

Machine reals (`f64` coordinates and scale factors) are modelled as `Rat`:
every arithmetic operation the embedded code performs on them
(division by the scale factor, subtraction for deltas, halving for the
window center) is exact field arithmetic, so the control flow of the
embedded functions does not depend on rounding of the representation.
The logical window size query `to_logical::<u32>` rounds to the nearest
integer, which is modelled with `round`. External side effects
(`surface.resize`, `window.set_cursor_position`) are recorded in ghost
log fields of the state so that claims about "the call happened" are
statable; the success or failure of `set_cursor_position` is an input
of the model (`set_cursor_ok`).
-/

namespace PistonGlutin

/-- Two's-complement cast of a `u32` scancode to `i32`, as in
`scancode as i32`. -/
def toI32 (n : Nat) : Int :=
  if n < 2 ^ 31 then (n : Int) else (n : Int) - 2 ^ 32

/-- Two's-complement cast of a `u64` touch id to `i64`, as in `id as i64`. -/
def toI64 (n : Nat) : Int :=
  if n < 2 ^ 63 then (n : Int) else (n : Int) - 2 ^ 64

/-- Modelled from the spec: the normalized key codes of the Piston input
layer (`crate::input::keyboard::Key`, declared outside `src/`); only the
constructors in the image of `map_key` are represented. -/
inductive Key where
  | D0 | D1 | D2 | D3 | D4 | D5 | D6 | D7 | D8 | D9
  | A | B | C | D | E | F | G | H | I | J | K | L | M
  | N | O | P | Q | R | S | T | U | V | W | X | Y | Z
  | Unknown
  | Backslash | Backspace | Delete | Comma | Down | End | Return
  | Equals | Escape
  | F1 | F2 | F3 | F4 | F5 | F6 | F7 | F8 | F9 | F10 | F11 | F12
  | F13 | F14 | F15 | F16 | F17 | F18 | F19 | F20 | F21 | F22 | F23 | F24
  | NumPad0 | NumPad1 | NumPad2 | NumPad3 | NumPad4
  | NumPad5 | NumPad6 | NumPad7 | NumPad8 | NumPad9
  | NumPadDecimal | NumPadDivide | NumPadMultiply
  | NumPadMinus | NumPadPlus | NumPadEnter | NumPadEquals
  | LShift | LCtrl | LAlt | RShift | RCtrl | RAlt
  | Home | Insert | Left | LeftBracket | Minus | NumLockClear
  | PageDown | PageUp | Pause | Period | PrintScreen | Right
  | RightBracket | ScrollLock | Semicolon | Slash | Space | Tab | Up
  deriving DecidableEq

/-- The winit virtual key codes (`winit::event::VirtualKeyCode`): all
constructors matched by name in `map_key`, plus representatives of the
variants that fall to the wildcard arm (`Capital`, `Grave`, `Menu`,
`World1`, `World2`, `Mute`); the remaining winit variants all take the
same wildcard arm. -/
inductive VKC where
  | Key0 | Key1 | Key2 | Key3 | Key4 | Key5 | Key6 | Key7 | Key8 | Key9
  | A | B | C | D | E | F | G | H | I | J | K | L | M
  | N | O | P | Q | R | S | T | U | V | W | X | Y | Z
  | Apostrophe | Backslash | Back | Delete | Comma | Down | End | Return
  | Equals | Escape
  | F1 | F2 | F3 | F4 | F5 | F6 | F7 | F8 | F9 | F10 | F11 | F12
  | F13 | F14 | F15 | F16 | F17 | F18 | F19 | F20 | F21 | F22 | F23 | F24
  | Numpad0 | Numpad1 | Numpad2 | Numpad3 | Numpad4
  | Numpad5 | Numpad6 | Numpad7 | Numpad8 | Numpad9
  | NumpadComma | NumpadDivide | NumpadMultiply
  | NumpadSubtract | NumpadAdd | NumpadEnter | NumpadEquals
  | LShift | LControl | LAlt | RShift | RControl | RAlt
  | Home | Insert | Left | LBracket | Minus | Numlock
  | PageDown | PageUp | Pause | Period | Snapshot | Right
  | RBracket | Scroll | Semicolon | Slash | Space | Tab | Up
  | Capital | Grave | Menu | World1 | World2 | Mute
  deriving DecidableEq

/-- Maps Glutin's key to Piston's key (`map_key` in
`src/glutin_window.rs`). -/
def map_key (keycode : VKC) : Key :=
  match keycode with
  | VKC.Key0 => Key.D0
  | VKC.Key1 => Key.D1
  | VKC.Key2 => Key.D2
  | VKC.Key3 => Key.D3
  | VKC.Key4 => Key.D4
  | VKC.Key5 => Key.D5
  | VKC.Key6 => Key.D6
  | VKC.Key7 => Key.D7
  | VKC.Key8 => Key.D8
  | VKC.Key9 => Key.D9
  | VKC.A => Key.A
  | VKC.B => Key.B
  | VKC.C => Key.C
  | VKC.D => Key.D
  | VKC.E => Key.E
  | VKC.F => Key.F
  | VKC.G => Key.G
  | VKC.H => Key.H
  | VKC.I => Key.I
  | VKC.J => Key.J
  | VKC.K => Key.K
  | VKC.L => Key.L
  | VKC.M => Key.M
  | VKC.N => Key.N
  | VKC.O => Key.O
  | VKC.P => Key.P
  | VKC.Q => Key.Q
  | VKC.R => Key.R
  | VKC.S => Key.S
  | VKC.T => Key.T
  | VKC.U => Key.U
  | VKC.V => Key.V
  | VKC.W => Key.W
  | VKC.X => Key.X
  | VKC.Y => Key.Y
  | VKC.Z => Key.Z
  | VKC.Apostrophe => Key.Unknown
  | VKC.Backslash => Key.Backslash
  | VKC.Back => Key.Backspace
  | VKC.Delete => Key.Delete
  | VKC.Comma => Key.Comma
  | VKC.Down => Key.Down
  | VKC.End => Key.End
  | VKC.Return => Key.Return
  | VKC.Equals => Key.Equals
  | VKC.Escape => Key.Escape
  | VKC.F1 => Key.F1
  | VKC.F2 => Key.F2
  | VKC.F3 => Key.F3
  | VKC.F4 => Key.F4
  | VKC.F5 => Key.F5
  | VKC.F6 => Key.F6
  | VKC.F7 => Key.F7
  | VKC.F8 => Key.F8
  | VKC.F9 => Key.F9
  | VKC.F10 => Key.F10
  | VKC.F11 => Key.F11
  | VKC.F12 => Key.F12
  | VKC.F13 => Key.F13
  | VKC.F14 => Key.F14
  | VKC.F15 => Key.F15
  | VKC.F16 => Key.F16
  | VKC.F17 => Key.F17
  | VKC.F18 => Key.F18
  | VKC.F19 => Key.F19
  | VKC.F20 => Key.F20
  | VKC.F21 => Key.F21
  | VKC.F22 => Key.F22
  | VKC.F23 => Key.F23
  | VKC.F24 => Key.F24
  | VKC.Numpad0 => Key.NumPad0
  | VKC.Numpad1 => Key.NumPad1
  | VKC.Numpad2 => Key.NumPad2
  | VKC.Numpad3 => Key.NumPad3
  | VKC.Numpad4 => Key.NumPad4
  | VKC.Numpad5 => Key.NumPad5
  | VKC.Numpad6 => Key.NumPad6
  | VKC.Numpad7 => Key.NumPad7
  | VKC.Numpad8 => Key.NumPad8
  | VKC.Numpad9 => Key.NumPad9
  | VKC.NumpadComma => Key.NumPadDecimal
  | VKC.NumpadDivide => Key.NumPadDivide
  | VKC.NumpadMultiply => Key.NumPadMultiply
  | VKC.NumpadSubtract => Key.NumPadMinus
  | VKC.NumpadAdd => Key.NumPadPlus
  | VKC.NumpadEnter => Key.NumPadEnter
  | VKC.NumpadEquals => Key.NumPadEquals
  | VKC.LShift => Key.LShift
  | VKC.LControl => Key.LCtrl
  | VKC.LAlt => Key.LAlt
  | VKC.RShift => Key.RShift
  | VKC.RControl => Key.RCtrl
  | VKC.RAlt => Key.RAlt
  | VKC.Home => Key.Home
  | VKC.Insert => Key.Insert
  | VKC.Left => Key.Left
  | VKC.LBracket => Key.LeftBracket
  | VKC.Minus => Key.Minus
  | VKC.Numlock => Key.NumLockClear
  | VKC.PageDown => Key.PageDown
  | VKC.PageUp => Key.PageUp
  | VKC.Pause => Key.Pause
  | VKC.Period => Key.Period
  | VKC.Snapshot => Key.PrintScreen
  | VKC.Right => Key.Right
  | VKC.RBracket => Key.RightBracket
  | VKC.Scroll => Key.ScrollLock
  | VKC.Semicolon => Key.Semicolon
  | VKC.Slash => Key.Slash
  | VKC.Space => Key.Space
  | VKC.Tab => Key.Tab
  | VKC.Up => Key.Up
  | _ => Key.Unknown

/-- The winit mouse buttons (`winit::event::MouseButton`); `other n`
carries the `u16` payload. -/
inductive NativeMouseButton where
  | left | right | middle
  | other (n : Nat)
  deriving DecidableEq

/-- Modelled from the spec: the normalized mouse buttons of the Piston
input layer (declared outside `src/`); only the image of `map_mouse` is
represented. -/
inductive MouseButton where
  | Left | Right | Middle | X1 | X2 | Button6 | Button7 | Button8 | Unknown
  deriving DecidableEq

/-- Maps Glutin's mouse button to Piston's mouse button (`map_mouse` in
`src/glutin_window.rs`). -/
def map_mouse (mouse_button : NativeMouseButton) : MouseButton :=
  match mouse_button with
  | NativeMouseButton.left => MouseButton.Left
  | NativeMouseButton.right => MouseButton.Right
  | NativeMouseButton.middle => MouseButton.Middle
  | NativeMouseButton.other 0 => MouseButton.X1
  | NativeMouseButton.other 1 => MouseButton.X2
  | NativeMouseButton.other 2 => MouseButton.Button6
  | NativeMouseButton.other 3 => MouseButton.Button7
  | NativeMouseButton.other 4 => MouseButton.Button8
  | NativeMouseButton.other _ => MouseButton.Unknown

/-- The winit touch phases. -/
inductive TouchPhase where
  | started | moved | ended | cancelled
  deriving DecidableEq

/-- Modelled from the spec: Piston's touch phase
(`crate::input::Touch`, declared outside `src/`). -/
inductive Touch where
  | Start | Move | End | Cancel
  deriving DecidableEq

/-- Modelled from the spec: Piston's touch arguments
(`TouchArgs::new(device, id, position, pressure, phase)`, declared
outside `src/`). -/
structure TouchArgs where
  device : Nat
  id : Int
  position : Rat × Rat
  pressure : Rat
  phase : Touch
  deriving DecidableEq

/-- Modelled from the spec: Piston's button state. -/
inductive ButtonState where
  | Press | Release
  deriving DecidableEq

/-- Modelled from the spec: Piston's button source. -/
inductive Button where
  | Keyboard (key : Key)
  | Mouse (button : MouseButton)
  deriving DecidableEq

/-- Modelled from the spec: Piston's button arguments. -/
structure ButtonArgs where
  state : ButtonState
  button : Button
  scancode : Option Int
  deriving DecidableEq

/-- Modelled from the spec: Piston's motion events. -/
inductive Motion where
  | MouseCursor (pos : Rat × Rat)
  | MouseRelative (delta : Rat × Rat)
  | MouseScroll (delta : Rat × Rat)
  | TouchMotion (args : TouchArgs)
  deriving DecidableEq

/-- Modelled from the spec: Piston's resize arguments; `window_size` is
the logical size, `draw_size` the physical drawable size. -/
structure ResizeArgs where
  window_size : Rat × Rat
  draw_size : Nat × Nat
  deriving DecidableEq

/-- Modelled from the spec: Piston's file-drag events; paths are plain
strings. -/
inductive FileDrag where
  | Hover (path : String)
  | Drop (path : String)
  | Cancel
  deriving DecidableEq

/-- Modelled from the spec: the normalized input event union
(`crate::input::Input`, declared outside `src/`). -/
inductive Input where
  | Button (args : ButtonArgs)
  | Move (motion : Motion)
  | Text (s : String)
  | Resize (args : ResizeArgs)
  | Focus (b : Bool)
  | Cursor (entered : Bool)
  | FileDrag (fd : FileDrag)
  | Close
  deriving DecidableEq

/-- The winit element state. -/
inductive ElementState where
  | pressed | released
  deriving DecidableEq

/-- The buffered native events
(`winit::event::Event<'static, UserEvent>` after `to_static_event`
filtering): one constructor per arm matched by `handle_event`, the
internal wake marker `userWakeUp`, and representatives of the variants
that fall to the wildcard arm (which sets the unknown flag). Physical
cursor/scroll/touch coordinates are carried as `Rat`. -/
inductive WEvent where
  | resized (w h : Nat)
  | receivedCharacter (c : Char)
  | focused (b : Bool)
  | keyboardInput (state : ElementState) (key : Option VKC) (scancode : Nat)
  | touch (phase : TouchPhase) (location : Rat × Rat) (id : Nat)
  | cursorMoved (position : Rat × Rat)
  | cursorEntered
  | cursorLeft
  | mouseWheelPixel (pos : Rat × Rat)
  | mouseWheelLine (x y : Rat)
  | mouseInput (state : ElementState) (button : NativeMouseButton)
  | hoveredFile (path : String)
  | droppedFile (path : String)
  | hoveredFileCancelled
  | closeRequested
  | userWakeUp
  | movedWindow (x y : Int)
  | destroyed
  | touchpadPressure
  | axisMotion
  | themeChanged
  | newEvents
  | deviceEvent
  | suspended
  | resumed
  | mainEventsCleared
  | redrawRequested
  | redrawEventsCleared
  | loopDestroyed
  deriving DecidableEq

/-- The mutable session state of `GlutinWindow`, together with the
observable environment it queries (scale factor, physical inner size,
whether `set_cursor_position` succeeds), the queue of native events not
yet drained (`native`), and ghost logs of the external calls
(`surface_resizes`, `cursor_set_calls`). -/
structure GlutinWindow where
  exit_on_esc : Bool
  should_close : Bool
  automatic_close : Bool
  is_capturing_cursor : Bool
  last_cursor_pos : Option (Rat × Rat)
  mouse_relative : Option (Rat × Rat)
  cursor_pos : Option (Rat × Rat)
  last_key_pressed : Option Key
  events : List WEvent
  native : List WEvent
  scale_factor : Rat
  inner_size : Nat × Nat
  set_cursor_ok : Bool
  surface_resizes : List (Nat × Nat)
  cursor_set_calls : List (Rat × Rat)
  cursor_visible : Bool
  deriving DecidableEq

/-- Rounding to the nearest integer, halves up: `roundRat q = ⌊q + 1/2⌋`,
computed on the numerator and denominator so that the kernel can
evaluate it. This models the `f64::round` used by winit's
`to_logical::<u32>` conversion, which for the nonnegative sizes that
occur rounds halves away from zero, i.e. up. -/
def roundRat (q : Rat) : Int :=
  Int.fdiv (2 * q.num + (q.den : Int)) (2 * (q.den : Int))

namespace GlutinWindow

/-- Logical window size: `window.inner_size().to_logical::<u32>(scale)`,
which rounds each physical dimension divided by the scale factor to the
nearest integer. -/
def size (s : GlutinWindow) : Rat × Rat :=
  ((roundRat ((s.inner_size.1 : Rat) / s.scale_factor) : Int),
   (roundRat ((s.inner_size.2 : Rat) / s.scale_factor) : Int))

/-- Cursor-capture emulator recenter step (`fake_capture` in
`src/glutin_window.rs`): when a last cursor position is known and
differs from the logical window center, attempt to move the pointer to
the center; on success the stored position becomes the center, on
failure it is left unchanged. -/
def fake_capture (s : GlutinWindow) : GlutinWindow :=
  match s.last_cursor_pos with
  | none => s
  | some pos =>
    let sz := s.size
    let cx := sz.1 / 2
    let cy := sz.2 / 2
    let dx := cx - pos.1
    let dy := cy - pos.2
    if dx ≠ 0 ∨ dy ≠ 0 then
      let s1 := { s with cursor_set_calls := s.cursor_set_calls ++ [(cx, cy)] }
      if s1.set_cursor_ok then { s1 with last_cursor_pos := some (cx, cy) }
      else s1
    else s

/-- Capture toggle (`set_capture_cursor` in `src/glutin_window.rs`):
records the capture flag, flips cursor visibility, and on enabling
performs one synchronous recenter attempt. -/
def set_capture_cursor (value : Bool) (s : GlutinWindow) : GlutinWindow :=
  let s1 := { s with is_capturing_cursor := value, cursor_visible := !value }
  if value then s1.fake_capture else s1

end GlutinWindow

/-- Result of the event classifier: the optional normalized event, the
updated window state, and the out-of-band unknown flag (the Rust
function writes `true` through `&mut bool`; the caller always passes in
`false`). -/
structure HandleResult where
  event : Option Input
  state : GlutinWindow
  unknown : Bool
  deriving DecidableEq

/-- Translation of a control character for a `ReceivedCharacter` event:
delete, escape, backspace, CR, LF and tab become the empty string. -/
def textOfChar (c : Char) : String :=
  if c = '\x7f' ∨ c = '\x1b' ∨ c = '\x08' ∨ c = '\x0d' ∨ c = '\x0a' ∨ c = '\x09'
  then ""
  else String.mk [c]

/-- The event classifier (`handle_event` in `src/glutin_window.rs`):
converts one optional buffered native event into at most one normalized
input event, mutating the window state; the `unknown` component models
the out-of-band flag. -/
def handleEvent (ev : Option WEvent) (s : GlutinWindow) : HandleResult :=
  match ev with
  | none =>
    if s.is_capturing_cursor then ⟨none, s.fake_capture, false⟩
    else ⟨none, s, false⟩
  | some (WEvent.resized w h) =>
    let sz := s.size
    if w = 0 ∨ h = 0 then ⟨none, s, false⟩
    else
      let s1 := { s with surface_resizes := s.surface_resizes ++ [(w, h)] }
      ⟨some (Input.Resize ⟨(sz.1, sz.2), (w, h)⟩), s1, false⟩
  | some (WEvent.receivedCharacter c) =>
    ⟨some (Input.Text (textOfChar c)), s, false⟩
  | some (WEvent.focused b) =>
    ⟨some (Input.Focus b), s, false⟩
  | some (WEvent.keyboardInput ElementState.pressed (some key) scancode) =>
    let piston_key := map_key key
    let s1 :=
      if s.exit_on_esc = true ∧ piston_key = Key.Escape then
        { s with should_close := true }
      else s
    if s1.last_key_pressed = some piston_key then ⟨none, s1, true⟩
    else
      let s2 := { s1 with last_key_pressed := some piston_key }
      ⟨some (Input.Button ⟨ButtonState.Press, Button.Keyboard piston_key,
        some (toI32 scancode)⟩), s2, false⟩
  | some (WEvent.keyboardInput ElementState.released (some key) scancode) =>
    let piston_key := map_key key
    let s1 :=
      if s.last_key_pressed = some piston_key then
        { s with last_key_pressed := none }
      else s
    ⟨some (Input.Button ⟨ButtonState.Release, Button.Keyboard piston_key,
      some (toI32 scancode)⟩), s1, false⟩
  | some (WEvent.touch phase location id) =>
    let scale := s.scale_factor
    let loc := (location.1 / scale, location.2 / scale)
    ⟨some (Input.Move (Motion.TouchMotion ⟨0, toI64 id, loc, 1,
      match phase with
      | TouchPhase.started => Touch.Start
      | TouchPhase.moved => Touch.Move
      | TouchPhase.ended => Touch.End
      | TouchPhase.cancelled => Touch.Cancel⟩)), s, false⟩
  | some (WEvent.cursorMoved position) =>
    let scale := s.scale_factor
    let x := position.1 / scale
    let y := position.2 / scale
    match s.last_cursor_pos with
    | some pos =>
      let dx := x - pos.1
      let dy := y - pos.2
      if s.is_capturing_cursor then
        let s1 := { s with last_cursor_pos := some (x, y) }
        ⟨some (Input.Move (Motion.MouseRelative (dx, dy))), s1.fake_capture, false⟩
      else
        let s1 := { s with mouse_relative := some (dx, dy),
                           last_cursor_pos := some (x, y) }
        ⟨some (Input.Move (Motion.MouseCursor (x, y))), s1, false⟩
    | none =>
      ⟨some (Input.Move (Motion.MouseCursor (x, y))),
        { s with last_cursor_pos := some (x, y) }, false⟩
  | some WEvent.cursorEntered => ⟨some (Input.Cursor true), s, false⟩
  | some WEvent.cursorLeft => ⟨some (Input.Cursor false), s, false⟩
  | some (WEvent.mouseWheelPixel pos) =>
    let scale := s.scale_factor
    ⟨some (Input.Move (Motion.MouseScroll (pos.1 / scale, pos.2 / scale))), s, false⟩
  | some (WEvent.mouseWheelLine x y) =>
    ⟨some (Input.Move (Motion.MouseScroll (x, y))), s, false⟩
  | some (WEvent.mouseInput ElementState.pressed button) =>
    ⟨some (Input.Button ⟨ButtonState.Press, Button.Mouse (map_mouse button),
      none⟩), s, false⟩
  | some (WEvent.mouseInput ElementState.released button) =>
    ⟨some (Input.Button ⟨ButtonState.Release, Button.Mouse (map_mouse button),
      none⟩), s, false⟩
  | some (WEvent.hoveredFile path) =>
    ⟨some (Input.FileDrag (FileDrag.Hover path)), s, false⟩
  | some (WEvent.droppedFile path) =>
    ⟨some (Input.FileDrag (FileDrag.Drop path)), s, false⟩
  | some WEvent.hoveredFileCancelled =>
    ⟨some (Input.FileDrag FileDrag.Cancel), s, false⟩
  | some WEvent.closeRequested =>
    let s1 := if s.automatic_close then { s with should_close := true } else s
    ⟨some Input.Close, s1, false⟩
  | some WEvent.userWakeUp => ⟨none, s, false⟩
  | some _ => ⟨none, s, true⟩

/-- Splits the native queue at the first wake marker, inclusively: the
events the pump's `run_return` callback pushes before exiting, and the
events left in the native source. -/
def takeUntilWake : List WEvent → List WEvent × List WEvent
  | [] => ([], [])
  | e :: rest =>
    if e = WEvent.userWakeUp then ([e], rest)
    else
      let (taken, left) := takeUntilWake rest
      (e :: taken, left)

/-- The event pump (`poll_events` in `src/glutin_window.rs`): injects a
wake marker at the back of the native source, then drains the source
into the internal buffer up to and including the first wake marker. -/
def pollEvents (s : GlutinWindow) : GlutinWindow :=
  let nq := s.native ++ [WEvent.userWakeUp]
  let (taken, left) := takeUntilWake nq
  { s with events := s.events ++ taken, native := left }

/-- The synthetic pre-pop queue (`pre_pop_front_event` in
`src/glutin_window.rs`): a pending absolute cursor event is drained
first, then a pending relative-motion event. -/
def prePopFrontEvent (s : GlutinWindow) : Option Input × GlutinWindow :=
  match s.cursor_pos with
  | some pos => (some (Input.Move (Motion.MouseCursor pos)), { s with cursor_pos := none })
  | none =>
    match s.mouse_relative with
    | some d => (some (Input.Move (Motion.MouseRelative d)), { s with mouse_relative := none })
    | none => (none, s)

/-- One iteration body of `poll_event`: drain the synthetic queue, else
pump if the buffer is empty, pop one buffered event, absorb it as the
capture seed when applicable, and classify it. Returns the classifier
result. -/
def pollEventStep (s : GlutinWindow) : HandleResult :=
  match prePopFrontEvent s with
  | (some e, s1) => ⟨some e, s1, false⟩
  | (none, s1) =>
    let s2 := if s1.events.isEmpty then pollEvents s1 else s1
    let ev := s2.events.head?
    let s3 := { s2 with events := s2.events.tail }
    let (ev2, s4) :=
      if s3.is_capturing_cursor = true ∧ s3.last_cursor_pos = none then
        match ev with
        | some (WEvent.cursorMoved position) =>
          let scale := s3.scale_factor
          let p := (position.1 / scale, position.2 / scale)
          let sA := { s3 with last_cursor_pos := some p }
          let sB := if sA.events.isEmpty then pollEvents sA else sA
          (sB.events.head?, { sB with events := sB.events.tail })
        | _ => (ev, s3)
      else (ev, s3)
    handleEvent ev2 s4

/-- The non-blocking scheduler entry (`poll_event` in
`src/glutin_window.rs`), with explicit fuel for the skip-unknown loop:
`none` means the fuel ran out before the loop finished, `some (e, s)`
means the loop returned `e` in state `s`. -/
def pollEventFuel : Nat → GlutinWindow → Option (Option Input × GlutinWindow)
  | 0, _ => none
  | fuel + 1, s =>
    let r := pollEventStep s
    if r.unknown then pollEventFuel fuel r.state
    else some (r.event, r.state)

/-- The escape-to-close side effect at the head of the key-press branch
of `handle_event`, factored out for stating the press lemmas: when
`exit_on_esc` is set and the mapped key is Escape, `should_close`
becomes true; otherwise the state is untouched. -/
def escCheck (pk : Key) (s : GlutinWindow) : GlutinWindow :=
  if s.exit_on_esc = true ∧ pk = Key.Escape then { s with should_close := true }
  else s

/-- A concrete window state used by the closed witness theorems: scale
factor 1, physical inner size 16 by 16 (so the logical center is
(8, 8)), no pending events, nothing held. -/
def exState : GlutinWindow :=
  { exit_on_esc := true, should_close := false, automatic_close := true,
    is_capturing_cursor := false, last_cursor_pos := none, mouse_relative := none,
    cursor_pos := none, last_key_pressed := none, events := [], native := [],
    scale_factor := 1, inner_size := (16, 16), set_cursor_ok := true,
    surface_resizes := [], cursor_set_calls := [], cursor_visible := true }

/-- Concrete state with a known last cursor position away from the
center. -/
def exPos : GlutinWindow := { exState with last_cursor_pos := some (5, 5) }

/-- Concrete state in capture mode with a known last cursor position
away from the center. -/
def exCapture : GlutinWindow :=
  { exState with is_capturing_cursor := true, last_cursor_pos := some (5, 5) }

/-- Concrete state in capture mode, no position observed yet, with one
buffered cursor-move event. -/
def exSeed : GlutinWindow :=
  { exState with
      is_capturing_cursor := true
      events := [WEvent.cursorMoved (3, 4)] }

/-- Concrete state with a pending relative-motion event and one buffered
native event behind it. -/
def exPending : GlutinWindow :=
  { exState with
      mouse_relative := some (3, 5)
      events := [WEvent.cursorEntered] }

/-- Sanity check of the embedding's rounding: `roundRat` agrees with
Mathlib's round-half-up `round` on every rational. -/
theorem roundRat_eq_round (q : Rat) : roundRat q = round q := by
  have hden : ((q.den : Rat)) ≠ 0 := by
    have := q.den_nz
    exact_mod_cast this
  have h : (q.num : Rat) = q * (q.den : Rat) := by
    have h2 := congrArg (fun x : Rat => x * (q.den : Rat)) (Rat.num_div_den q)
    set_option linter.unnecessarySimpa false in
    simpa [div_mul_cancel₀, hden] using h2
  have key : q + 1 / 2 =
      ((2 * q.num + (q.den : Int) : Int) : Rat) / ((2 * q.den : Nat) : Rat) := by
    rw [eq_div_iff (by positivity)]
    push_cast
    rw [h]
    ring
  rw [roundRat, round_eq, key, Rat.floor_intCast_div_natCast,
      Int.fdiv_eq_ediv _ (by positivity)]
  push_cast
  rfl

/-- When the recenter succeeds ('set_cursor_ok'), the recenter step
leaves 'last_cursor_pos' at the logical window center: either the call
moved it there, or it already was there and no call was needed. -/
theorem fake_capture_last_cursor_pos (s : GlutinWindow) (p : Rat × Rat)
    (hok : s.set_cursor_ok = true) (hp : s.last_cursor_pos = some p) :
    s.fake_capture.last_cursor_pos = some (s.size.1 / 2, s.size.2 / 2) := by
  unfold GlutinWindow.fake_capture
  simp only [hp]
  split_ifs with hd
  · simp [hok]
  · push_neg at hd
    obtain ⟨h1, h2⟩ := hd
    rw [hp]
    have e1 : p.1 = s.size.1 / 2 := by linarith [sub_eq_zero.mp h1]
    have e2 : p.2 = s.size.2 / 2 := by linarith [sub_eq_zero.mp h2]
    rw [show p = (s.size.1 / 2, s.size.2 / 2) from Prod.ext e1 e2]

/-- The recenter step never clears 'last_cursor_pos': it is 'none' after
the step exactly when it was 'none' before. -/
theorem fake_capture_none_iff (s : GlutinWindow) :
    s.fake_capture.last_cursor_pos = none ↔ s.last_cursor_pos = none := by
  unfold GlutinWindow.fake_capture
  cases hp : s.last_cursor_pos with
  | none => simp [hp]
  | some p => simp only [hp]; split_ifs <;> simp [hp]

/-- Key-release classification, fully characterized: always emits
'Button(Release)' with the mapped key, and clears the held-key slot
exactly when it matches. -/
theorem handleEvent_release (s : GlutinWindow) (k : VKC) (sc : Nat) :
    handleEvent (some (WEvent.keyboardInput ElementState.released (some k) sc)) s =
      ⟨some (Input.Button ⟨ButtonState.Release, Button.Keyboard (map_key k),
        some (toI32 sc)⟩),
       if s.last_key_pressed = some (map_key k) then
         { s with last_key_pressed := none }
       else s,
       false⟩ := by
  simp only [handleEvent]

/-- C1 counterexample: in the concrete state 'exPos' (capture off, last
cursor position (5, 5)), calling 'set_capture_cursor true' does NOT set
'last_cursor_pos' to 'none', contradicting the claim that re-entering
capture mode clears it. -/
theorem C1_counterexample :
    (GlutinWindow.set_capture_cursor true exPos).last_cursor_pos ≠ none := by
  with_unfolding_all decide

/-- C1 (amended): 'set_capture_cursor true' never resets
'last_cursor_pos' to 'none'; it is 'none' afterwards exactly when it
already was 'none' (the toggle performs one recenter attempt instead of
clearing the position, so the seed rule is re-armed only if no move was
ever observed). -/
theorem C1_set_capture_cursor_keeps_position (s : GlutinWindow) :
    (GlutinWindow.set_capture_cursor true s).last_cursor_pos = none ↔
      s.last_cursor_pos = none := by
  unfold GlutinWindow.set_capture_cursor
  simp only [if_true]
  rw [fake_capture_none_iff]

/-- C2 counterexample: in the concrete state 'exState' (valid window
size 16 by 16), a native resize to drawable size 0 by 5 performs no
surface resize call AND emits no event at all, contradicting the claim
that a 'Resize' event is still emitted. -/
theorem C2_counterexample :
    (handleEvent (some (WEvent.resized 0 5)) exState).event = none ∧
    (handleEvent (some (WEvent.resized 0 5)) exState).state.surface_resizes =
      exState.surface_resizes := by
  with_unfolding_all decide

/-- C2 (amended): a native resize with a zero dimension is a complete
no-op: no surface resize call and no emitted event (and the unknown
flag stays clear); a resize with both dimensions nonzero resizes the
surface and emits 'Resize' with the logical window size and the
reported drawable size. -/
theorem C2_resize_classification (s : GlutinWindow) (w h : Nat) :
    (w = 0 ∨ h = 0 →
      handleEvent (some (WEvent.resized w h)) s = ⟨none, s, false⟩) ∧
    (w ≠ 0 → h ≠ 0 →
      handleEvent (some (WEvent.resized w h)) s =
        ⟨some (Input.Resize ⟨(s.size.1, s.size.2), (w, h)⟩),
         { s with surface_resizes := s.surface_resizes ++ [(w, h)] }, false⟩) := by
  constructor
  · intro h0
    simp [handleEvent, h0]
  · intro hw hh
    simp [handleEvent, hw, hh]

/-- C2 witness: the amended resize classification evaluated at the
concrete state 'exState', for the zero-width resize 0 by 5 and the
valid resize 3 by 5. -/
theorem C2_witness :
    handleEvent (some (WEvent.resized 0 5)) exState = ⟨none, exState, false⟩ ∧
    handleEvent (some (WEvent.resized 3 5)) exState =
      ⟨some (Input.Resize ⟨(exState.size.1, exState.size.2), (3, 5)⟩),
       { exState with surface_resizes := exState.surface_resizes ++ [(3, 5)] },
       false⟩ :=
  ⟨(C2_resize_classification exState 0 5).1 (Or.inl rfl),
   (C2_resize_classification exState 3 5).2 (by decide) (by decide)⟩

/-- C3 counterexample: in the concrete capturing state 'exCapture'
(last position (5, 5), center (8, 8)), classifying the wake marker
leaves the state completely unchanged — in particular no recenter call
is made — although classifying the absent event does recenter. This
contradicts the claim that the wake marker also triggers the recenter
step. -/
theorem C3_counterexample :
    handleEvent (some WEvent.userWakeUp) exCapture = ⟨none, exCapture, false⟩ ∧
    (handleEvent none exCapture).state.cursor_set_calls ≠
      exCapture.cursor_set_calls := by
  with_unfolding_all decide

/-- C3 (amended): while capture mode is active, classifying the absent
native event triggers the recenter step and produces no event, but
classifying the internal wake marker produces no event with NO side
effect at all. -/
theorem C3_idle_recenter_on_absent_event_only (s : GlutinWindow)
    (h : s.is_capturing_cursor = true) :
    handleEvent none s = ⟨none, s.fake_capture, false⟩ ∧
    handleEvent (some WEvent.userWakeUp) s = ⟨none, s, false⟩ := by
  constructor
  · simp [handleEvent, h]
  · simp [handleEvent]

/-- C3 witness: the amended idle/wake classification evaluated at the
concrete capturing state 'exCapture'. -/
theorem C3_witness :
    handleEvent none exCapture = ⟨none, exCapture.fake_capture, false⟩ ∧
    handleEvent (some WEvent.userWakeUp) exCapture = ⟨none, exCapture, false⟩ :=
  C3_idle_recenter_on_absent_event_only exCapture rfl

/-- C8: if 'exit_on_esc' is set and the pressed key maps to Escape,
classifying the press sets 'should_close', whether or not the press is
then suppressed by the key-repeat dedupe. -/
theorem C8_escape_press_sets_should_close (s : GlutinWindow) (k : VKC) (sc : Nat)
    (hexit : s.exit_on_esc = true) (hkey : map_key k = Key.Escape) :
    (handleEvent (some (WEvent.keyboardInput ElementState.pressed (some k) sc))
      s).state.should_close = true := by
  simp only [handleEvent, hkey]
  split_ifs with h1 h2 <;> simp_all

/-- C8 witness: pressing Escape in a state where Escape is already
recorded as held (so the press is suppressed) still sets
'should_close'. -/
theorem C8_witness :
    (handleEvent (some (WEvent.keyboardInput ElementState.pressed (some VKC.Escape) 9))
      { exState with last_key_pressed := some Key.Escape }).state.should_close = true :=
  C8_escape_press_sets_should_close
    { exState with last_key_pressed := some Key.Escape } VKC.Escape 9 rfl rfl

/-- C9: classifying a key release always emits 'Button(Release)' with
the mapped key (releases are never suppressed, and the unknown flag
stays clear), and the held-key slot is set to 'none' when the released
key matches the tracked key and left unchanged otherwise. -/
theorem C9_release_never_suppressed (s : GlutinWindow) (k : VKC) (sc : Nat) :
    (handleEvent (some (WEvent.keyboardInput ElementState.released (some k) sc)) s).event
        = some (Input.Button ⟨ButtonState.Release, Button.Keyboard (map_key k),
            some (toI32 sc)⟩) ∧
    (handleEvent (some (WEvent.keyboardInput ElementState.released (some k) sc))
        s).state.last_key_pressed
        = (if s.last_key_pressed = some (map_key k) then none
           else s.last_key_pressed) ∧
    (handleEvent (some (WEvent.keyboardInput ElementState.released (some k) sc)) s).unknown
        = false := by
  rw [handleEvent_release]
  refine ⟨rfl, ?_, rfl⟩
  split_ifs <;> rfl

/-- The escape-to-close side effect preserves the held-key slot. -/
theorem escCheck_last_key_pressed (pk : Key) (s : GlutinWindow) :
    (escCheck pk s).last_key_pressed = s.last_key_pressed := by
  unfold escCheck
  split_ifs <;> rfl

/-- Key-press classification when the mapped key is not recorded as
held: the press is emitted and the key becomes the tracked key. -/
theorem handleEvent_press_new (s : GlutinWindow) (k : VKC) (sc : Nat)
    (h : s.last_key_pressed ≠ some (map_key k)) :
    handleEvent (some (WEvent.keyboardInput ElementState.pressed (some k) sc)) s =
      ⟨some (Input.Button ⟨ButtonState.Press, Button.Keyboard (map_key k),
        some (toI32 sc)⟩),
       { escCheck (map_key k) s with last_key_pressed := some (map_key k) },
       false⟩ := by
  simp only [handleEvent, escCheck]
  by_cases hc : s.exit_on_esc = true ∧ map_key k = Key.Escape
  · obtain ⟨hc1, hc2⟩ := hc
    rw [hc2] at h
    simp [hc1, hc2, h]
  · simp [hc, h]

/-- Key-press classification when the mapped key is already recorded as
held: the press is dropped with the unrecognized flag set; only the
escape-to-close side effect happens. -/
theorem handleEvent_press_held (s : GlutinWindow) (k : VKC) (sc : Nat)
    (h : s.last_key_pressed = some (map_key k)) :
    handleEvent (some (WEvent.keyboardInput ElementState.pressed (some k) sc)) s =
      ⟨none, escCheck (map_key k) s, true⟩ := by
  simp only [handleEvent, escCheck]
  by_cases hc : s.exit_on_esc = true ∧ map_key k = Key.Escape
  · obtain ⟨hc1, hc2⟩ := hc
    rw [hc2] at h
    simp [hc1, hc2, h]
  · simp [hc, h]

/-- C4: starting from any state in which the key is not recorded as
held, two consecutive presses of the same key yield exactly one
'Button(Press)': the first press emits it, the second press is flagged
unrecognized and yields no event; after a matching release (which emits
'Button(Release)'), a third press of the same key yields a second
'Button(Press)'. -/
theorem C4_press_dedupe_cycle (s : GlutinWindow) (k : VKC) (sc1 sc2 sc3 sc4 : Nat)
    (h : s.last_key_pressed ≠ some (map_key k)) :
    ∃ s1 s2 s3 s4,
      handleEvent (some (WEvent.keyboardInput ElementState.pressed (some k) sc1)) s =
        ⟨some (Input.Button ⟨ButtonState.Press, Button.Keyboard (map_key k),
          some (toI32 sc1)⟩), s1, false⟩ ∧
      handleEvent (some (WEvent.keyboardInput ElementState.pressed (some k) sc2)) s1 =
        ⟨none, s2, true⟩ ∧
      handleEvent (some (WEvent.keyboardInput ElementState.released (some k) sc3)) s2 =
        ⟨some (Input.Button ⟨ButtonState.Release, Button.Keyboard (map_key k),
          some (toI32 sc3)⟩), s3, false⟩ ∧
      handleEvent (some (WEvent.keyboardInput ElementState.pressed (some k) sc4)) s3 =
        ⟨some (Input.Button ⟨ButtonState.Press, Button.Keyboard (map_key k),
          some (toI32 sc4)⟩), s4, false⟩ := by
  have e1 := handleEvent_press_new s k sc1 h
  have ht1 : ({ escCheck (map_key k) s with
      last_key_pressed := some (map_key k) } : GlutinWindow).last_key_pressed
      = some (map_key k) := rfl
  have e2 := handleEvent_press_held _ k sc2 ht1
  have ht2 : (escCheck (map_key k)
      { escCheck (map_key k) s with
        last_key_pressed := some (map_key k) }).last_key_pressed
      = some (map_key k) :=
    (escCheck_last_key_pressed _ _).trans ht1
  have e3 : handleEvent (some (WEvent.keyboardInput ElementState.released (some k) sc3))
      (escCheck (map_key k)
        { escCheck (map_key k) s with last_key_pressed := some (map_key k) }) =
      ⟨some (Input.Button ⟨ButtonState.Release, Button.Keyboard (map_key k),
        some (toI32 sc3)⟩),
       { escCheck (map_key k)
          { escCheck (map_key k) s with last_key_pressed := some (map_key k) } with
            last_key_pressed := none },
       false⟩ := by
    rw [handleEvent_release, if_pos ht2]
  have ht3 : ({ escCheck (map_key k)
      { escCheck (map_key k) s with last_key_pressed := some (map_key k) } with
        last_key_pressed := none } : GlutinWindow).last_key_pressed
      ≠ some (map_key k) := by
    intro hcontra
    exact Option.noConfusion hcontra
  have e4 := handleEvent_press_new _ k sc4 ht3
  exact ⟨_, _, _, _, e1, e2, e3, e4⟩

/-- C4 witness: the press-press-release-press cycle for key A starting
from the concrete state 'exState'. -/
theorem C4_witness :
    ∃ s1 s2 s3 s4,
      handleEvent (some (WEvent.keyboardInput ElementState.pressed (some VKC.A) 1)) exState =
        ⟨some (Input.Button ⟨ButtonState.Press, Button.Keyboard (map_key VKC.A),
          some (toI32 1)⟩), s1, false⟩ ∧
      handleEvent (some (WEvent.keyboardInput ElementState.pressed (some VKC.A) 2)) s1 =
        ⟨none, s2, true⟩ ∧
      handleEvent (some (WEvent.keyboardInput ElementState.released (some VKC.A) 3)) s2 =
        ⟨some (Input.Button ⟨ButtonState.Release, Button.Keyboard (map_key VKC.A),
          some (toI32 3)⟩), s3, false⟩ ∧
      handleEvent (some (WEvent.keyboardInput ElementState.pressed (some VKC.A) 4)) s3 =
        ⟨some (Input.Button ⟨ButtonState.Press, Button.Keyboard (map_key VKC.A),
          some (toI32 4)⟩), s4, false⟩ :=
  C4_press_dedupe_cycle exState VKC.A 1 2 3 4 (by decide)

/-- C5: a poll on an empty native source with no pending synthetic
event terminates in a single iteration of the skip-unknown loop and
returns no event, leaving the state unchanged: the pump injects a wake
marker so the drain produces exactly that marker, which is classified
as no-event without the unrecognized flag. -/
theorem C5_poll_event_empty_source (s : GlutinWindow) (fuel : Nat)
    (h1 : s.native = []) (h2 : s.events = []) (h3 : s.cursor_pos = none)
    (h4 : s.mouse_relative = none) :
    pollEventFuel (fuel + 1) s = some (none, s) := by
  obtain ⟨a1, a2, a3, a4, a5, a6, a7, a8, a9, a10, a11, a12, a13, a14, a15, a16⟩ := s
  simp only at h1 h2 h3 h4
  subst h1 h2 h3 h4
  simp [pollEventFuel, pollEventStep, prePopFrontEvent, pollEvents,
    takeUntilWake, handleEvent]

/-- C5 witness: polling the concrete empty state 'exState' with fuel 1
returns no event. -/
theorem C5_witness : pollEventFuel 1 exState = some (none, exState) :=
  C5_poll_event_empty_source exState 0 rfl rfl rfl rfl

/-- C6: while capturing, (1) with no position observed yet, a poll whose
only buffered native event is a cursor move absorbs that move as the
seed — no event is surfaced and 'last_cursor_pos' becomes the logical
move position; (2) with a previous position stored and the recenter
succeeding, classifying a cursor move emits exactly one 'MouseRelative'
event equal to the delta from the stored position (the absolute
'MouseCursor' event is suppressed) and leaves 'last_cursor_pos' at the
logical window center. -/
theorem C6_capture_seed_and_relative_motion :
    (∀ (s : GlutinWindow) (p : Rat × Rat) (fuel : Nat),
        s.is_capturing_cursor = true → s.last_cursor_pos = none →
        s.cursor_pos = none → s.mouse_relative = none →
        s.events = [WEvent.cursorMoved p] → s.native = [] →
        pollEventFuel (fuel + 1) s =
          some (none, { s with
            last_cursor_pos := some (p.1 / s.scale_factor, p.2 / s.scale_factor)
            events := []
            native := [] })) ∧
    (∀ (s : GlutinWindow) (q p : Rat × Rat),
        s.is_capturing_cursor = true → s.last_cursor_pos = some q →
        s.set_cursor_ok = true →
        (handleEvent (some (WEvent.cursorMoved p)) s).event =
          some (Input.Move (Motion.MouseRelative
            (p.1 / s.scale_factor - q.1, p.2 / s.scale_factor - q.2))) ∧
        (handleEvent (some (WEvent.cursorMoved p)) s).state.last_cursor_pos =
          some (s.size.1 / 2, s.size.2 / 2) ∧
        (handleEvent (some (WEvent.cursorMoved p)) s).unknown = false) := by
  constructor
  · intro s p fuel hcap hlast hcp hmr hev hnat
    obtain ⟨a1, a2, a3, a4, a5, a6, a7, a8, a9, a10, a11, a12, a13, a14, a15, a16⟩ := s
    simp only at hcap hlast hcp hmr hev hnat
    subst hcap hlast hcp hmr hev hnat
    simp [pollEventFuel, pollEventStep, prePopFrontEvent, pollEvents,
      takeUntilWake, handleEvent]
  · intro s q p hcap hlast hok
    have hmain : handleEvent (some (WEvent.cursorMoved p)) s =
        ⟨some (Input.Move (Motion.MouseRelative
           (p.1 / s.scale_factor - q.1, p.2 / s.scale_factor - q.2))),
         GlutinWindow.fake_capture { s with
           last_cursor_pos := some (p.1 / s.scale_factor, p.2 / s.scale_factor) },
         false⟩ := by
      simp [handleEvent, hlast, hcap]
    rw [hmain]
    refine ⟨rfl, ?_, rfl⟩
    exact fake_capture_last_cursor_pos
      { s with last_cursor_pos := some (p.1 / s.scale_factor, p.2 / s.scale_factor) }
      (p.1 / s.scale_factor, p.2 / s.scale_factor) hok rfl

/-- C6 witness: the seed absorption on the concrete state 'exSeed'
(buffered move to (3, 4), scale 1), and the relative-motion emission on
the concrete capture state 'exCapture' (stored (5, 5), move to (7, 9),
center (8, 8)). -/
theorem C6_witness :
    pollEventFuel 1 exSeed =
      some (none, { exSeed with
        last_cursor_pos := some (3 / exSeed.scale_factor, 4 / exSeed.scale_factor)
        events := []
        native := [] }) ∧
    (handleEvent (some (WEvent.cursorMoved (7, 9))) exCapture).event =
      some (Input.Move (Motion.MouseRelative
        (7 / exCapture.scale_factor - 5, 9 / exCapture.scale_factor - 5))) ∧
    (handleEvent (some (WEvent.cursorMoved (7, 9))) exCapture).state.last_cursor_pos =
      some (exCapture.size.1 / 2, exCapture.size.2 / 2) ∧
    (handleEvent (some (WEvent.cursorMoved (7, 9))) exCapture).unknown = false :=
  ⟨C6_capture_seed_and_relative_motion.1 exSeed (3, 4) 0 rfl rfl rfl rfl rfl rfl,
   C6_capture_seed_and_relative_motion.2 exCapture (5, 5) (7, 9) rfl rfl rfl⟩

/-- C7: with capture off and a previous position stored, (1) classifying
a cursor move emits the absolute 'MouseCursor' event immediately and
stashes the delta in 'mouse_relative'; (2) on the next poll call, a
pending 'mouse_relative' is delivered exactly once, before any native
event is touched: the buffered and native queues are unchanged and the
pending slot is cleared. -/
theorem C7_relative_motion_one_cycle_lag :
    (∀ (s : GlutinWindow) (q p : Rat × Rat),
        s.is_capturing_cursor = false → s.last_cursor_pos = some q →
        handleEvent (some (WEvent.cursorMoved p)) s =
          ⟨some (Input.Move (Motion.MouseCursor
             (p.1 / s.scale_factor, p.2 / s.scale_factor))),
           { s with
               mouse_relative := some (p.1 / s.scale_factor - q.1, p.2 / s.scale_factor - q.2)
               last_cursor_pos := some (p.1 / s.scale_factor, p.2 / s.scale_factor) },
           false⟩) ∧
    (∀ (s : GlutinWindow) (d : Rat × Rat) (fuel : Nat),
        s.cursor_pos = none → s.mouse_relative = some d →
        pollEventFuel (fuel + 1) s =
          some (some (Input.Move (Motion.MouseRelative d)),
            { s with mouse_relative := none })) := by
  constructor
  · intro s q p hcap hlast
    simp [handleEvent, hlast, hcap]
  · intro s d fuel hcp hmr
    simp [pollEventFuel, pollEventStep, prePopFrontEvent, hcp, hmr]

/-- C7 witness: the stash on the concrete state 'exPos' (stored (1, 1),
move to (4, 6)), and the pending-first delivery on the concrete state
'exPending' (pending delta (3, 5), one buffered native event that is
left untouched). -/
theorem C7_witness :
    handleEvent (some (WEvent.cursorMoved (4, 6))) exPos =
      ⟨some (Input.Move (Motion.MouseCursor
         (4 / exPos.scale_factor, 6 / exPos.scale_factor))),
       { exPos with
           mouse_relative := some (4 / exPos.scale_factor - 5, 6 / exPos.scale_factor - 5)
           last_cursor_pos := some (4 / exPos.scale_factor, 6 / exPos.scale_factor) },
       false⟩ ∧
    pollEventFuel 1 exPending =
      some (some (Input.Move (Motion.MouseRelative (3, 5))),
        { exPending with mouse_relative := none }) :=
  ⟨C7_relative_motion_one_cycle_lag.1 exPos (5, 5) (4, 6) rfl rfl,
   C7_relative_motion_one_cycle_lag.2 exPending (3, 5) 0 rfl rfl⟩

set_option linter.unnecessarySeqFocus false in
/-- C10: whenever the classifier reports an event as unrecognized, it
returns no normalized event: the unknown flag and an emitted event are
mutually exclusive. -/
theorem C10_unknown_implies_no_event (ev : Option WEvent) (s : GlutinWindow)
    (h : (handleEvent ev s).unknown = true) :
    (handleEvent ev s).event = none := by
  rcases ev with _ | e
  · simp only [handleEvent] at h ⊢
    split_ifs at h ⊢
  · cases e
    case keyboardInput st ko sc =>
      cases st <;> rcases ko with _ | k <;>
        simp only [handleEvent] at h ⊢ <;>
        (try split_ifs at h ⊢) <;> (try simp_all)
    case mouseInput st b =>
      cases st <;> simp only [handleEvent] at h ⊢ <;> simp_all
    case cursorMoved p =>
      rcases hl : s.last_cursor_pos with _ | q <;>
        simp only [handleEvent, hl] at h ⊢ <;>
        (try split_ifs at h ⊢) <;> (first | rfl | simp_all)
    all_goals simp only [handleEvent] at h ⊢
    all_goals try split_ifs at h ⊢
    all_goals simp_all

/-- C10 witness: the wildcard native event 'MainEventsCleared' is
marked unrecognized and yields no event in the concrete state
'exState'. -/
theorem C10_witness :
    (handleEvent (some WEvent.mainEventsCleared) exState).unknown = true ∧
    (handleEvent (some WEvent.mainEventsCleared) exState).event = none :=
  ⟨rfl, C10_unknown_implies_no_event (some WEvent.mainEventsCleared) exState rfl⟩

end PistonGlutin
